import Mathlib

/-!
Verification development for the K8s GenAI DevOps agent repository.

Shallow embedding of the repository's core components:
  * `k8s_tools.py` — the tool Catalog (`get_tool_definitions`) and the
    Executor (`execute_tool`), a try/except-wrapped elif chain over 24
    operation names that dispatches to the cluster client.
  * `k8s_agent.py` — the conversation Orchestrator (`chat`,
    `reset_conversation`, `get_conversation_history`) and the system-prompt
    resolution (`load_system_prompt` with its triple-quoted-string scanner).
  * `k8s_client.py` — `_calculate_age` and the pod-summary computation of
    `get_pods` (ready flag and restart total over container statuses).

External collaborators (the Kubernetes API client and the model API) are
modelled as oracles: a backend is a function from a structured call
description to `Except String Value` (an exception or a returned value), and
the two model calls of a turn are `Except`-valued inputs.  The Executor is
instrumented to also return the list of backend calls it made, so that
"no backend call is made" is expressible as an empty trace.
-/

/-- JSON-like values: the argument and result values flowing through the
    tool layer (Python dict/list/str/int/bool/None). -/
inductive Value : Type where
  | null : Value
  | bool (b : Bool) : Value
  | int (i : Int) : Value
  | str (s : String) : Value
  | arr (elems : List Value) : Value
  | obj (fields : List (String × Value)) : Value

/-- A Python dict of keyword arguments, as an association list. -/
abbrev Params := List (String × Value)

/-- Dictionary lookup: `parameters.get(k)` semantics (first binding wins). -/
def lookupP (p : Params) (k : String) : Option Value :=
  match p with
  | [] => none
  | (k₂, v) :: rest => if k₂ = k then some v else lookupP rest k

/-- `parameters.get(k, d)`: the stored value if the key is present
    (even if it is `None`), otherwise the default. -/
def getDefault (p : Params) (k : String) (d : Value) : Value :=
  match lookupP p k with
  | some v => v
  | none => d

/-- The apostrophe character, used by Python's `str(KeyError(k))`. -/
def quoteChar : Char := Char.ofNat 39

/-- `str(KeyError(k))` in Python renders as the key wrapped in single
    quotes; this is the error text `execute_tool` returns when a required
    parameter is absent. -/
def pyKeyError (k : String) : String :=
  String.singleton quoteChar ++ k ++ String.singleton quoteChar

/-- The ResultEnvelope dict returned by `execute_tool`:
    `{"success": bool, "data": ... }` or `{"success": false, "error": ...}`. -/
structure Envelope : Type where
  success : Bool
  data : Option Value
  error : Option String

/-- `{"success": True, "data": v}` -/
def mkOk (v : Value) : Envelope := ⟨true, some v, none⟩

/-- `{"success": False, "error": e}` -/
def mkErr (e : String) : Envelope := ⟨false, none, some e⟩

/-- The well-formed shapes an envelope may take: success carries data and
    no error, failure carries an error string and no data. -/
def envShape (e : Envelope) : Prop :=
  (e.success = true ∧ (e.data).isSome = true ∧ e.error = none) ∨
  (e.success = false ∧ e.data = none ∧ (e.error).isSome = true)

theorem envShape_mkOk (v : Value) : envShape (mkOk v) := by
  left; exact ⟨rfl, rfl, rfl⟩

theorem envShape_mkErr (s : String) : envShape (mkErr s) := by
  right; exact ⟨rfl, rfl, rfl⟩

/-- One call into the `K8sClient` cluster backend, with the (unvalidated)
    argument values the Executor passes along.  Each constructor mirrors one
    method of `k8s_client.py`. -/
inductive BackendCall : Type where
  | getPods (ns sel : Value)
  | getDeployments (ns : Value)
  | getServices (ns : Value)
  | getNamespaces
  | scaleDeployment (name replicas ns : Value)
  | deletePod (name ns : Value)
  | getPodLogs (name ns tail : Value)
  | createNamespace (name labels : Value)
  | deleteNamespace (name : Value)
  | getClusterInfo
  | createPod (name image ns port env lbl : Value)
  | createDeployment (name image replicas ns port env lbl : Value)
  | createService (name port targetPort ns serviceType sel : Value)
  | createConfigmap (name data ns lbl : Value)
  | createSecret (name data ns secretType lbl : Value)
  | getConfigmaps (ns : Value)
  | getSecrets (ns : Value)
  | updatePodImage (name container newImage ns : Value)
  | updateDeploymentImage (name container newImage ns : Value)
  | updateConfigmap (name data ns : Value)
  | deleteDeployment (name ns : Value)
  | deleteService (name ns : Value)
  | deleteConfigmap (name ns : Value)
  | deleteSecret (name ns : Value)

/-- The cluster backend as an oracle: a call either returns a value or
    raises an exception carrying a message string. -/
abbrev Backend := BackendCall → Except String Value

/-- Intermediate result of the `try:` body of `execute_tool`: either an
    envelope was returned, or an exception escaped the body; paired with
    the trace of backend calls made so far. -/
abbrev Res := Except String Envelope × List BackendCall

/-- `parameters[k]`: raises `KeyError(k)` when the key is absent,
    otherwise continues with the value. -/
def req (p : Params) (k : String) (kont : Value → Res) : Res :=
  match lookupP p k with
  | some v => kont v
  | none => (Except.error (pyKeyError k), [])

/-- Make the one backend call of a branch: the call is recorded in the
    trace whether it succeeds or raises; on success its value is wrapped
    through `post` into a success envelope. -/
def callWrap (bk : Backend) (c : BackendCall) (post : Value → Value) : Res :=
  match bk c with
  | Except.ok v => (Except.ok (mkOk (post v)), [c])
  | Except.error e => (Except.error e, [c])

/-- The `try:` body of `K8sTools.execute_tool`: the elif chain over tool
    names, each branch extracting its declared parameters
    (`parameters[k]` for required ones, `parameters.get(k, default)` for
    optional ones, in source order) and making one backend call. -/
def execBody (bk : Backend) (n : String) (p : Params) : Res :=
  if n = "list_pods" then
    callWrap bk (BackendCall.getPods (getDefault p "namespace" (Value.str "default"))
      (getDefault p "label_selector" Value.null)) id
  else if n = "list_deployments" then
    callWrap bk (BackendCall.getDeployments (getDefault p "namespace" (Value.str "default"))) id
  else if n = "list_services" then
    callWrap bk (BackendCall.getServices (getDefault p "namespace" (Value.str "default"))) id
  else if n = "list_namespaces" then
    callWrap bk BackendCall.getNamespaces id
  else if n = "scale_deployment" then
    req p "name" fun name =>
    req p "replicas" fun replicas =>
    callWrap bk (BackendCall.scaleDeployment name replicas
      (getDefault p "namespace" (Value.str "default"))) id
  else if n = "delete_pod" then
    req p "name" fun name =>
    callWrap bk (BackendCall.deletePod name (getDefault p "namespace" (Value.str "default"))) id
  else if n = "get_pod_logs" then
    req p "name" fun name =>
    callWrap bk (BackendCall.getPodLogs name (getDefault p "namespace" (Value.str "default"))
      (getDefault p "tail_lines" (Value.int 100)))
      (fun v => Value.obj [("logs", v)])
  else if n = "create_namespace" then
    req p "name" fun name =>
    callWrap bk (BackendCall.createNamespace name (getDefault p "labels" Value.null)) id
  else if n = "delete_namespace" then
    req p "name" fun name =>
    callWrap bk (BackendCall.deleteNamespace name) id
  else if n = "get_cluster_info" then
    callWrap bk BackendCall.getClusterInfo id
  else if n = "create_pod" then
    req p "name" fun name =>
    req p "image" fun image =>
    callWrap bk (BackendCall.createPod name image
      (getDefault p "namespace" (Value.str "default"))
      (getDefault p "port" Value.null)
      (getDefault p "env_vars" Value.null)
      (getDefault p "labels" Value.null)) id
  else if n = "create_deployment" then
    req p "name" fun name =>
    req p "image" fun image =>
    callWrap bk (BackendCall.createDeployment name image
      (getDefault p "replicas" (Value.int 1))
      (getDefault p "namespace" (Value.str "default"))
      (getDefault p "port" Value.null)
      (getDefault p "env_vars" Value.null)
      (getDefault p "labels" Value.null)) id
  else if n = "create_service" then
    req p "name" fun name =>
    req p "port" fun port =>
    req p "target_port" fun targetPort =>
    callWrap bk (BackendCall.createService name port targetPort
      (getDefault p "namespace" (Value.str "default"))
      (getDefault p "service_type" (Value.str "ClusterIP"))
      (getDefault p "selector" Value.null)) id
  else if n = "create_configmap" then
    req p "name" fun name =>
    req p "data" fun data =>
    callWrap bk (BackendCall.createConfigmap name data
      (getDefault p "namespace" (Value.str "default"))
      (getDefault p "labels" Value.null)) id
  else if n = "create_secret" then
    req p "name" fun name =>
    req p "data" fun data =>
    callWrap bk (BackendCall.createSecret name data
      (getDefault p "namespace" (Value.str "default"))
      (getDefault p "secret_type" (Value.str "Opaque"))
      (getDefault p "labels" Value.null)) id
  else if n = "list_configmaps" then
    callWrap bk (BackendCall.getConfigmaps (getDefault p "namespace" (Value.str "default"))) id
  else if n = "list_secrets" then
    callWrap bk (BackendCall.getSecrets (getDefault p "namespace" (Value.str "default"))) id
  else if n = "update_pod_image" then
    req p "name" fun name =>
    req p "container_name" fun container =>
    req p "new_image" fun newImage =>
    callWrap bk (BackendCall.updatePodImage name container newImage
      (getDefault p "namespace" (Value.str "default"))) id
  else if n = "update_deployment_image" then
    req p "name" fun name =>
    req p "container_name" fun container =>
    req p "new_image" fun newImage =>
    callWrap bk (BackendCall.updateDeploymentImage name container newImage
      (getDefault p "namespace" (Value.str "default"))) id
  else if n = "update_configmap" then
    req p "name" fun name =>
    req p "data" fun data =>
    callWrap bk (BackendCall.updateConfigmap name data
      (getDefault p "namespace" (Value.str "default"))) id
  else if n = "delete_deployment" then
    req p "name" fun name =>
    callWrap bk (BackendCall.deleteDeployment name
      (getDefault p "namespace" (Value.str "default"))) id
  else if n = "delete_service" then
    req p "name" fun name =>
    callWrap bk (BackendCall.deleteService name
      (getDefault p "namespace" (Value.str "default"))) id
  else if n = "delete_configmap" then
    req p "name" fun name =>
    callWrap bk (BackendCall.deleteConfigmap name
      (getDefault p "namespace" (Value.str "default"))) id
  else if n = "delete_secret" then
    req p "name" fun name =>
    callWrap bk (BackendCall.deleteSecret name
      (getDefault p "namespace" (Value.str "default"))) id
  else
    (Except.ok (mkErr ("Unknown tool: " ++ n)), [])

/-- The `except Exception` handler: an exception escaping the body is
    converted into a failure envelope carrying `str(e)`. -/
def handleExcept : Except String Envelope → Envelope
  | Except.ok env => env
  | Except.error e => mkErr e

/-- `K8sTools.execute_tool`, instrumented with the backend-call trace. -/
def execute_tool (bk : Backend) (n : String) (p : Params) :
    Envelope × List BackendCall :=
  ((handleExcept (execBody bk n p).1), (execBody bk n p).2)

/-- Parameter schema entry of a tool definition (descriptions elided:
    they are inert documentation strings). -/
structure PropSpec : Type where
  type : String
  default : Option Value := none

/-- One entry of `get_tool_definitions`: name, parameter properties and
    the list of required parameter names. -/
structure ToolDef : Type where
  name : String
  properties : List (String × PropSpec)
  required : List String

/-- `K8sTools.get_tool_definitions`: the static tool Catalog, in source
    order. -/
def get_tool_definitions : List ToolDef :=
  [ { name := "list_pods",
      properties := [("namespace", ⟨"string", some (Value.str "default")⟩),
                     ("label_selector", ⟨"string", none⟩)],
      required := [] },
    { name := "list_deployments",
      properties := [("namespace", ⟨"string", some (Value.str "default")⟩)],
      required := [] },
    { name := "list_services",
      properties := [("namespace", ⟨"string", some (Value.str "default")⟩)],
      required := [] },
    { name := "list_namespaces", properties := [], required := [] },
    { name := "scale_deployment",
      properties := [("name", ⟨"string", none⟩), ("replicas", ⟨"integer", none⟩),
                     ("namespace", ⟨"string", some (Value.str "default")⟩)],
      required := ["name", "replicas"] },
    { name := "delete_pod",
      properties := [("name", ⟨"string", none⟩),
                     ("namespace", ⟨"string", some (Value.str "default")⟩)],
      required := ["name"] },
    { name := "get_pod_logs",
      properties := [("name", ⟨"string", none⟩),
                     ("namespace", ⟨"string", some (Value.str "default")⟩),
                     ("tail_lines", ⟨"integer", some (Value.int 100)⟩)],
      required := ["name"] },
    { name := "create_namespace",
      properties := [("name", ⟨"string", none⟩), ("labels", ⟨"object", none⟩)],
      required := ["name"] },
    { name := "delete_namespace",
      properties := [("name", ⟨"string", none⟩)],
      required := ["name"] },
    { name := "get_cluster_info", properties := [], required := [] },
    { name := "create_pod",
      properties := [("name", ⟨"string", none⟩), ("image", ⟨"string", none⟩),
                     ("namespace", ⟨"string", some (Value.str "default")⟩),
                     ("port", ⟨"integer", none⟩), ("env_vars", ⟨"object", none⟩),
                     ("labels", ⟨"object", none⟩)],
      required := ["name", "image"] },
    { name := "create_deployment",
      properties := [("name", ⟨"string", none⟩), ("image", ⟨"string", none⟩),
                     ("replicas", ⟨"integer", some (Value.int 1)⟩),
                     ("namespace", ⟨"string", some (Value.str "default")⟩),
                     ("port", ⟨"integer", none⟩), ("env_vars", ⟨"object", none⟩),
                     ("labels", ⟨"object", none⟩)],
      required := ["name", "image"] },
    { name := "create_service",
      properties := [("name", ⟨"string", none⟩), ("port", ⟨"integer", none⟩),
                     ("target_port", ⟨"integer", none⟩),
                     ("namespace", ⟨"string", some (Value.str "default")⟩),
                     ("service_type", ⟨"string", some (Value.str "ClusterIP")⟩),
                     ("selector", ⟨"object", none⟩)],
      required := ["name", "port", "target_port"] },
    { name := "create_configmap",
      properties := [("name", ⟨"string", none⟩), ("data", ⟨"object", none⟩),
                     ("namespace", ⟨"string", some (Value.str "default")⟩),
                     ("labels", ⟨"object", none⟩)],
      required := ["name", "data"] },
    { name := "create_secret",
      properties := [("name", ⟨"string", none⟩), ("data", ⟨"object", none⟩),
                     ("namespace", ⟨"string", some (Value.str "default")⟩),
                     ("secret_type", ⟨"string", some (Value.str "Opaque")⟩),
                     ("labels", ⟨"object", none⟩)],
      required := ["name", "data"] },
    { name := "list_configmaps",
      properties := [("namespace", ⟨"string", some (Value.str "default")⟩)],
      required := [] },
    { name := "list_secrets",
      properties := [("namespace", ⟨"string", some (Value.str "default")⟩)],
      required := [] },
    { name := "update_pod_image",
      properties := [("name", ⟨"string", none⟩), ("container_name", ⟨"string", none⟩),
                     ("new_image", ⟨"string", none⟩),
                     ("namespace", ⟨"string", some (Value.str "default")⟩)],
      required := ["name", "container_name", "new_image"] },
    { name := "update_deployment_image",
      properties := [("name", ⟨"string", none⟩), ("container_name", ⟨"string", none⟩),
                     ("new_image", ⟨"string", none⟩),
                     ("namespace", ⟨"string", some (Value.str "default")⟩)],
      required := ["name", "container_name", "new_image"] },
    { name := "update_configmap",
      properties := [("name", ⟨"string", none⟩), ("data", ⟨"object", none⟩),
                     ("namespace", ⟨"string", some (Value.str "default")⟩)],
      required := ["name", "data"] },
    { name := "delete_deployment",
      properties := [("name", ⟨"string", none⟩),
                     ("namespace", ⟨"string", some (Value.str "default")⟩)],
      required := ["name"] },
    { name := "delete_service",
      properties := [("name", ⟨"string", none⟩),
                     ("namespace", ⟨"string", some (Value.str "default")⟩)],
      required := ["name"] },
    { name := "delete_configmap",
      properties := [("name", ⟨"string", none⟩),
                     ("namespace", ⟨"string", some (Value.str "default")⟩)],
      required := ["name"] },
    { name := "delete_secret",
      properties := [("name", ⟨"string", none⟩),
                     ("namespace", ⟨"string", some (Value.str "default")⟩)],
      required := ["name"] } ]

/-- The advertised operation names, in catalog order. -/
def toolNames : List String := get_tool_definitions.map (fun d => d.name)

/-- The required parameter names an operation declares in the Catalog
    (empty for names not in the Catalog). -/
def requiredParams (n : String) : List String :=
  match get_tool_definitions.find? (fun d => d.name = n) with
  | some d => d.required
  | none => []

/-- A `Res` whose ok-outcome, if any, is a well-shaped envelope. -/
def okShape (r : Res) : Prop :=
  ∀ env, r.1 = Except.ok env → envShape env

theorem okShape_req (p : Params) (k : String) (kont : Value → Res)
    (h : ∀ v, okShape (kont v)) : okShape (req p k kont) := by
  unfold req
  cases hl : lookupP p k with
  | some v => exact h v
  | none => intro env henv; cases henv

theorem okShape_callWrap (bk : Backend) (c : BackendCall) (post : Value → Value) :
    okShape (callWrap bk c post) := by
  unfold callWrap
  cases hb : bk c with
  | ok v => intro env henv; cases henv; exact envShape_mkOk _
  | error e => intro env henv; cases henv

theorem okShape_unknown (s : String) (tr : List BackendCall) :
    okShape ((Except.ok (mkErr s), tr) : Res) := by
  intro env henv; cases henv; exact envShape_mkErr s

theorem okShape_execBody (bk : Backend) (n : String) (p : Params) :
    okShape (execBody bk n p) := by
  unfold execBody
  by_cases h1 : n = "list_pods"
  · rw [if_pos h1]
    repeat
      first
        | exact okShape_callWrap _ _ _
        | (apply okShape_req; intro _)
  rw [if_neg h1]
  by_cases h2 : n = "list_deployments"
  · rw [if_pos h2]
    repeat
      first
        | exact okShape_callWrap _ _ _
        | (apply okShape_req; intro _)
  rw [if_neg h2]
  by_cases h3 : n = "list_services"
  · rw [if_pos h3]
    repeat
      first
        | exact okShape_callWrap _ _ _
        | (apply okShape_req; intro _)
  rw [if_neg h3]
  by_cases h4 : n = "list_namespaces"
  · rw [if_pos h4]
    repeat
      first
        | exact okShape_callWrap _ _ _
        | (apply okShape_req; intro _)
  rw [if_neg h4]
  by_cases h5 : n = "scale_deployment"
  · rw [if_pos h5]
    repeat
      first
        | exact okShape_callWrap _ _ _
        | (apply okShape_req; intro _)
  rw [if_neg h5]
  by_cases h6 : n = "delete_pod"
  · rw [if_pos h6]
    repeat
      first
        | exact okShape_callWrap _ _ _
        | (apply okShape_req; intro _)
  rw [if_neg h6]
  by_cases h7 : n = "get_pod_logs"
  · rw [if_pos h7]
    repeat
      first
        | exact okShape_callWrap _ _ _
        | (apply okShape_req; intro _)
  rw [if_neg h7]
  by_cases h8 : n = "create_namespace"
  · rw [if_pos h8]
    repeat
      first
        | exact okShape_callWrap _ _ _
        | (apply okShape_req; intro _)
  rw [if_neg h8]
  by_cases h9 : n = "delete_namespace"
  · rw [if_pos h9]
    repeat
      first
        | exact okShape_callWrap _ _ _
        | (apply okShape_req; intro _)
  rw [if_neg h9]
  by_cases h10 : n = "get_cluster_info"
  · rw [if_pos h10]
    repeat
      first
        | exact okShape_callWrap _ _ _
        | (apply okShape_req; intro _)
  rw [if_neg h10]
  by_cases h11 : n = "create_pod"
  · rw [if_pos h11]
    repeat
      first
        | exact okShape_callWrap _ _ _
        | (apply okShape_req; intro _)
  rw [if_neg h11]
  by_cases h12 : n = "create_deployment"
  · rw [if_pos h12]
    repeat
      first
        | exact okShape_callWrap _ _ _
        | (apply okShape_req; intro _)
  rw [if_neg h12]
  by_cases h13 : n = "create_service"
  · rw [if_pos h13]
    repeat
      first
        | exact okShape_callWrap _ _ _
        | (apply okShape_req; intro _)
  rw [if_neg h13]
  by_cases h14 : n = "create_configmap"
  · rw [if_pos h14]
    repeat
      first
        | exact okShape_callWrap _ _ _
        | (apply okShape_req; intro _)
  rw [if_neg h14]
  by_cases h15 : n = "create_secret"
  · rw [if_pos h15]
    repeat
      first
        | exact okShape_callWrap _ _ _
        | (apply okShape_req; intro _)
  rw [if_neg h15]
  by_cases h16 : n = "list_configmaps"
  · rw [if_pos h16]
    repeat
      first
        | exact okShape_callWrap _ _ _
        | (apply okShape_req; intro _)
  rw [if_neg h16]
  by_cases h17 : n = "list_secrets"
  · rw [if_pos h17]
    repeat
      first
        | exact okShape_callWrap _ _ _
        | (apply okShape_req; intro _)
  rw [if_neg h17]
  by_cases h18 : n = "update_pod_image"
  · rw [if_pos h18]
    repeat
      first
        | exact okShape_callWrap _ _ _
        | (apply okShape_req; intro _)
  rw [if_neg h18]
  by_cases h19 : n = "update_deployment_image"
  · rw [if_pos h19]
    repeat
      first
        | exact okShape_callWrap _ _ _
        | (apply okShape_req; intro _)
  rw [if_neg h19]
  by_cases h20 : n = "update_configmap"
  · rw [if_pos h20]
    repeat
      first
        | exact okShape_callWrap _ _ _
        | (apply okShape_req; intro _)
  rw [if_neg h20]
  by_cases h21 : n = "delete_deployment"
  · rw [if_pos h21]
    repeat
      first
        | exact okShape_callWrap _ _ _
        | (apply okShape_req; intro _)
  rw [if_neg h21]
  by_cases h22 : n = "delete_service"
  · rw [if_pos h22]
    repeat
      first
        | exact okShape_callWrap _ _ _
        | (apply okShape_req; intro _)
  rw [if_neg h22]
  by_cases h23 : n = "delete_configmap"
  · rw [if_pos h23]
    repeat
      first
        | exact okShape_callWrap _ _ _
        | (apply okShape_req; intro _)
  rw [if_neg h23]
  by_cases h24 : n = "delete_secret"
  · rw [if_pos h24]
    repeat
      first
        | exact okShape_callWrap _ _ _
        | (apply okShape_req; intro _)
  rw [if_neg h24]
  exact okShape_unknown _ _

/-- C1: the Executor is a total function into envelopes: for every tool
    name, argument map and backend behaviour, `execute_tool` returns a
    dict-shaped ResultEnvelope — success with data, or failure with an
    error string — and (being a total function of its oracles) never
    propagates an exception to its caller. -/
theorem execute_tool_total_envelope (bk : Backend) (n : String) (p : Params) :
    envShape (execute_tool bk n p).1 := by
  unfold execute_tool
  cases hb : (execBody bk n p).1 with
  | ok env =>
      have := okShape_execBody bk n p env hb
      simpa [handleExcept, hb] using this
  | error e =>
      exact envShape_mkErr e

theorem req_none (p : Params) (k : String) (kont : Value → Res)
    (h : lookupP p k = none) :
    req p k kont = (Except.error (pyKeyError k), []) := by
  unfold req; rw [h]

theorem req_some (p : Params) (k : String) (kont : Value → Res) (v : Value)
    (h : lookupP p k = some v) :
    req p k kont = kont v := by
  unfold req; rw [h]

/-- The advertised names, as a literal list. -/
theorem toolNames_eq :
    toolNames = ["list_pods", "list_deployments", "list_services", "list_namespaces", "scale_deployment", "delete_pod", "get_pod_logs", "create_namespace", "delete_namespace", "get_cluster_info", "create_pod", "create_deployment", "create_service", "create_configmap", "create_secret", "list_configmaps", "list_secrets", "update_pod_image", "update_deployment_image", "update_configmap", "delete_deployment", "delete_service", "delete_configmap", "delete_secret"] := rfl

theorem execBody_not_mem (bk : Backend) (n : String) (p : Params)
    (h : n ∉ toolNames) :
    execBody bk n p = (Except.ok (mkErr ("Unknown tool: " ++ n)), []) := by
  rw [toolNames_eq] at h
  simp only [List.mem_cons, List.not_mem_nil, or_false, not_or] at h
  obtain ⟨h1, h2, h3, h4, h5, h6, h7, h8, h9, h10, h11, h12, h13, h14, h15, h16, h17, h18, h19, h20, h21, h22, h23, h24⟩ := h
  unfold execBody
  rw [if_neg h1, if_neg h2, if_neg h3, if_neg h4, if_neg h5, if_neg h6, if_neg h7, if_neg h8, if_neg h9, if_neg h10, if_neg h11, if_neg h12, if_neg h13, if_neg h14, if_neg h15, if_neg h16, if_neg h17, if_neg h18, if_neg h19, if_neg h20, if_neg h21, if_neg h22, if_neg h23, if_neg h24]

theorem execute_tool_not_mem (bk : Backend) (n : String) (p : Params)
    (h : n ∉ toolNames) :
    execute_tool bk n p = (mkErr ("Unknown tool: " ++ n), []) := by
  unfold execute_tool
  rw [execBody_not_mem bk n p h]
  rfl

/-- Whether `needle` starts the char list `hay`. -/
def listStartsWith : List Char → List Char → Bool
  | [], _ => true
  | _ :: _, [] => false
  | a :: as, b :: bs => a = b && listStartsWith as bs

/-- Whether `needle` occurs inside `hay` (Python's `in` on strings). -/
def listContainsSub (needle : List Char) : List Char → Bool
  | [] => listStartsWith needle []
  | c :: cs => listStartsWith needle (c :: cs) || listContainsSub needle cs

/-- Substring test on strings, modelling Python's `"a" in s`. -/
def strContainsSub (needle hay : String) : Bool :=
  listContainsSub needle.data hay.data

/-- A benign backend oracle used for concrete evaluations: every call
    succeeds with `None`. -/
def bk0 : Backend := fun _ => Except.ok Value.null

/-- A single argument dict carrying every required parameter any
    operation declares, used to drive each branch to its backend call. -/
def sampleArgs : Params :=
  [("name", Value.str "nginx"), ("replicas", Value.int 3),
   ("image", Value.str "nginx:alpine"), ("container_name", Value.str "web"),
   ("new_image", Value.str "nginx:2"), ("port", Value.int 80),
   ("target_port", Value.int 8080), ("data", Value.obj [])]

/-- C2 counterexample: for the unknown operation name "foo" the Executor
    returns the error string "Unknown tool: foo" (capital U), which does
    not contain the lowercase substring "unknown"; so the claim that the
    error string contains "unknown" is false as stated. -/
theorem unknown_tool_lowercase_counterexample :
    (execute_tool bk0 "foo" []).1.error = some ("Unknown tool: " ++ "foo")
    ∧ strContainsSub "unknown" ("Unknown tool: " ++ "foo") = false := by
  exact ⟨rfl, rfl⟩

/-- C2 (amended): for every operation name outside the Catalog, the
    Executor returns a failed envelope whose error string is exactly
    "Unknown tool: <name>" (capital U), and no backend call is made
    (empty call trace). -/
theorem execute_unknown_tool (bk : Backend) (p : Params) (n : String)
    (h : n ∉ toolNames) :
    execute_tool bk n p = (mkErr ("Unknown tool: " ++ n), []) :=
  execute_tool_not_mem bk n p h

/-- Witness for C2 (amended) at the concrete unknown name "foo". -/
theorem execute_unknown_tool_witness :
    "foo" ∉ toolNames
    ∧ execute_tool bk0 "foo" [] = (mkErr ("Unknown tool: " ++ "foo"), []) :=
  ⟨by decide, execute_unknown_tool bk0 [] "foo" (by decide)⟩

/-- C6: the Catalog's operation names are duplicate-free, every advertised
    name has a dispatch branch that reaches the backend (with suitable
    arguments its call trace has length one), and every name outside the
    Catalog falls through to the unknown-tool failure with an empty call
    trace (no orphan backend calls). -/
theorem catalog_executor_agreement :
    toolNames.Nodup
    ∧ (∀ n, n ∈ toolNames → ((execute_tool bk0 n sampleArgs).2).length = 1)
    ∧ (∀ n, n ∉ toolNames → ∀ bk p,
        execute_tool bk n p = (mkErr ("Unknown tool: " ++ n), [])) := by
  refine ⟨by decide, ?_, ?_⟩
  · intro n hn
    rw [toolNames_eq] at hn
    simp only [List.mem_cons, List.not_mem_nil, or_false] at hn
    rcases hn with rfl | rfl | rfl | rfl | rfl | rfl | rfl | rfl | rfl | rfl | rfl | rfl | rfl | rfl | rfl | rfl | rfl | rfl | rfl | rfl | rfl | rfl | rfl | rfl
    all_goals rfl
  · intro n hn bk p
    exact execute_tool_not_mem bk n p hn

/-- Witness for C6 at a concrete advertised name and a concrete unknown
    name. -/
theorem catalog_executor_agreement_witness :
    ("scale_deployment" ∈ toolNames
      ∧ ((execute_tool bk0 "scale_deployment" sampleArgs).2).length = 1)
    ∧ ("bogus_tool" ∉ toolNames
      ∧ execute_tool bk0 "bogus_tool" [] = (mkErr ("Unknown tool: " ++ "bogus_tool"), [])) := by
  refine ⟨⟨by decide, catalog_executor_agreement.2.1 "scale_deployment" (by decide)⟩,
          ⟨by decide, catalog_executor_agreement.2.2 "bogus_tool" (by decide) bk0 []⟩⟩

theorem requiredParams_nil_of_not_mem (n : String) (h : n ∉ toolNames) :
    requiredParams n = [] := by
  unfold requiredParams
  have hf : get_tool_definitions.find? (fun d => d.name = n) = none := by
    rw [List.find?_eq_none]
    intro d hd
    simp only [decide_eq_true_eq]
    intro hEq
    exact h (by unfold toolNames; exact hEq ▸ List.mem_map_of_mem _ hd)
  rw [hf]

/-- C3: whenever a known operation is invoked with some Catalog-required
    parameter absent from the arguments, the Executor returns a failed
    envelope whose error text names a missing required parameter (the
    `str(KeyError(k))` rendering, the key in single quotes), and no
    backend call is made (empty call trace). -/
theorem execute_missing_required_param (bk : Backend) (n : String) (p : Params)
    (h : ∃ k, k ∈ requiredParams n ∧ lookupP p k = none) :
    (execute_tool bk n p).1.success = false
    ∧ (∃ k, k ∈ requiredParams n ∧ lookupP p k = none
        ∧ (execute_tool bk n p).1.error = some (pyKeyError k))
    ∧ (execute_tool bk n p).2 = [] := by
  by_cases hn1 : n = "list_pods"
  · subst hn1
    exfalso
    obtain ⟨k, hk, _⟩ := h
    have hreq : requiredParams "list_pods" = [] := rfl
    rw [hreq] at hk
    exact List.not_mem_nil _ hk
  by_cases hn2 : n = "list_deployments"
  · subst hn2
    exfalso
    obtain ⟨k, hk, _⟩ := h
    have hreq : requiredParams "list_deployments" = [] := rfl
    rw [hreq] at hk
    exact List.not_mem_nil _ hk
  by_cases hn3 : n = "list_services"
  · subst hn3
    exfalso
    obtain ⟨k, hk, _⟩ := h
    have hreq : requiredParams "list_services" = [] := rfl
    rw [hreq] at hk
    exact List.not_mem_nil _ hk
  by_cases hn4 : n = "list_namespaces"
  · subst hn4
    exfalso
    obtain ⟨k, hk, _⟩ := h
    have hreq : requiredParams "list_namespaces" = [] := rfl
    rw [hreq] at hk
    exact List.not_mem_nil _ hk
  by_cases hn5 : n = "scale_deployment"
  · subst hn5
    rcases hx1 : lookupP p "name" with _ | v1
    · have hE : execute_tool bk "scale_deployment" p = (mkErr (pyKeyError "name"), []) := by
        have hred : execBody bk "scale_deployment" p = req p "name" fun name => req p "replicas" fun replicas => callWrap bk (BackendCall.scaleDeployment name replicas (getDefault p "namespace" (Value.str "default"))) id := rfl
        simp only [execute_tool, hred, req, hx1, handleExcept]
      refine ⟨by simp [hE, mkErr], ⟨"name", by decide, hx1, by simp [hE, mkErr]⟩, by simp [hE, mkErr]⟩
    · rcases hx2 : lookupP p "replicas" with _ | v2
      · have hE : execute_tool bk "scale_deployment" p = (mkErr (pyKeyError "replicas"), []) := by
          have hred : execBody bk "scale_deployment" p = req p "name" fun name => req p "replicas" fun replicas => callWrap bk (BackendCall.scaleDeployment name replicas (getDefault p "namespace" (Value.str "default"))) id := rfl
          simp only [execute_tool, hred, req, hx1, hx2, handleExcept]
        refine ⟨by simp [hE, mkErr], ⟨"replicas", by decide, hx2, by simp [hE, mkErr]⟩, by simp [hE, mkErr]⟩
      · exfalso
        obtain ⟨k, hk, hmiss⟩ := h
        have hreq : requiredParams "scale_deployment" = ["name", "replicas"] := rfl
        rw [hreq] at hk
        simp only [List.mem_cons, List.not_mem_nil, or_false] at hk
        rcases hk with rfl | rfl
        · rw [hx1] at hmiss
          exact Option.noConfusion hmiss
        · rw [hx2] at hmiss
          exact Option.noConfusion hmiss
  by_cases hn6 : n = "delete_pod"
  · subst hn6
    rcases hx1 : lookupP p "name" with _ | v1
    · have hE : execute_tool bk "delete_pod" p = (mkErr (pyKeyError "name"), []) := by
        have hred : execBody bk "delete_pod" p = req p "name" fun name => callWrap bk (BackendCall.deletePod name (getDefault p "namespace" (Value.str "default"))) id := rfl
        simp only [execute_tool, hred, req, hx1, handleExcept]
      refine ⟨by simp [hE, mkErr], ⟨"name", by decide, hx1, by simp [hE, mkErr]⟩, by simp [hE, mkErr]⟩
    · exfalso
      obtain ⟨k, hk, hmiss⟩ := h
      have hreq : requiredParams "delete_pod" = ["name"] := rfl
      rw [hreq] at hk
      have hk2 : k = "name" := by
        simpa using hk
      subst hk2
      rw [hx1] at hmiss
      exact Option.noConfusion hmiss
  by_cases hn7 : n = "get_pod_logs"
  · subst hn7
    rcases hx1 : lookupP p "name" with _ | v1
    · have hE : execute_tool bk "get_pod_logs" p = (mkErr (pyKeyError "name"), []) := by
        have hred : execBody bk "get_pod_logs" p = req p "name" fun name => callWrap bk (BackendCall.getPodLogs name (getDefault p "namespace" (Value.str "default")) (getDefault p "tail_lines" (Value.int 100))) (fun v => Value.obj [("logs", v)]) := rfl
        simp only [execute_tool, hred, req, hx1, handleExcept]
      refine ⟨by simp [hE, mkErr], ⟨"name", by decide, hx1, by simp [hE, mkErr]⟩, by simp [hE, mkErr]⟩
    · exfalso
      obtain ⟨k, hk, hmiss⟩ := h
      have hreq : requiredParams "get_pod_logs" = ["name"] := rfl
      rw [hreq] at hk
      have hk2 : k = "name" := by
        simpa using hk
      subst hk2
      rw [hx1] at hmiss
      exact Option.noConfusion hmiss
  by_cases hn8 : n = "create_namespace"
  · subst hn8
    rcases hx1 : lookupP p "name" with _ | v1
    · have hE : execute_tool bk "create_namespace" p = (mkErr (pyKeyError "name"), []) := by
        have hred : execBody bk "create_namespace" p = req p "name" fun name => callWrap bk (BackendCall.createNamespace name (getDefault p "labels" Value.null)) id := rfl
        simp only [execute_tool, hred, req, hx1, handleExcept]
      refine ⟨by simp [hE, mkErr], ⟨"name", by decide, hx1, by simp [hE, mkErr]⟩, by simp [hE, mkErr]⟩
    · exfalso
      obtain ⟨k, hk, hmiss⟩ := h
      have hreq : requiredParams "create_namespace" = ["name"] := rfl
      rw [hreq] at hk
      have hk2 : k = "name" := by
        simpa using hk
      subst hk2
      rw [hx1] at hmiss
      exact Option.noConfusion hmiss
  by_cases hn9 : n = "delete_namespace"
  · subst hn9
    rcases hx1 : lookupP p "name" with _ | v1
    · have hE : execute_tool bk "delete_namespace" p = (mkErr (pyKeyError "name"), []) := by
        have hred : execBody bk "delete_namespace" p = req p "name" fun name => callWrap bk (BackendCall.deleteNamespace name) id := rfl
        simp only [execute_tool, hred, req, hx1, handleExcept]
      refine ⟨by simp [hE, mkErr], ⟨"name", by decide, hx1, by simp [hE, mkErr]⟩, by simp [hE, mkErr]⟩
    · exfalso
      obtain ⟨k, hk, hmiss⟩ := h
      have hreq : requiredParams "delete_namespace" = ["name"] := rfl
      rw [hreq] at hk
      have hk2 : k = "name" := by
        simpa using hk
      subst hk2
      rw [hx1] at hmiss
      exact Option.noConfusion hmiss
  by_cases hn10 : n = "get_cluster_info"
  · subst hn10
    exfalso
    obtain ⟨k, hk, _⟩ := h
    have hreq : requiredParams "get_cluster_info" = [] := rfl
    rw [hreq] at hk
    exact List.not_mem_nil _ hk
  by_cases hn11 : n = "create_pod"
  · subst hn11
    rcases hx1 : lookupP p "name" with _ | v1
    · have hE : execute_tool bk "create_pod" p = (mkErr (pyKeyError "name"), []) := by
        have hred : execBody bk "create_pod" p = req p "name" fun name => req p "image" fun image => callWrap bk (BackendCall.createPod name image (getDefault p "namespace" (Value.str "default")) (getDefault p "port" Value.null) (getDefault p "env_vars" Value.null) (getDefault p "labels" Value.null)) id := rfl
        simp only [execute_tool, hred, req, hx1, handleExcept]
      refine ⟨by simp [hE, mkErr], ⟨"name", by decide, hx1, by simp [hE, mkErr]⟩, by simp [hE, mkErr]⟩
    · rcases hx2 : lookupP p "image" with _ | v2
      · have hE : execute_tool bk "create_pod" p = (mkErr (pyKeyError "image"), []) := by
          have hred : execBody bk "create_pod" p = req p "name" fun name => req p "image" fun image => callWrap bk (BackendCall.createPod name image (getDefault p "namespace" (Value.str "default")) (getDefault p "port" Value.null) (getDefault p "env_vars" Value.null) (getDefault p "labels" Value.null)) id := rfl
          simp only [execute_tool, hred, req, hx1, hx2, handleExcept]
        refine ⟨by simp [hE, mkErr], ⟨"image", by decide, hx2, by simp [hE, mkErr]⟩, by simp [hE, mkErr]⟩
      · exfalso
        obtain ⟨k, hk, hmiss⟩ := h
        have hreq : requiredParams "create_pod" = ["name", "image"] := rfl
        rw [hreq] at hk
        simp only [List.mem_cons, List.not_mem_nil, or_false] at hk
        rcases hk with rfl | rfl
        · rw [hx1] at hmiss
          exact Option.noConfusion hmiss
        · rw [hx2] at hmiss
          exact Option.noConfusion hmiss
  by_cases hn12 : n = "create_deployment"
  · subst hn12
    rcases hx1 : lookupP p "name" with _ | v1
    · have hE : execute_tool bk "create_deployment" p = (mkErr (pyKeyError "name"), []) := by
        have hred : execBody bk "create_deployment" p = req p "name" fun name => req p "image" fun image => callWrap bk (BackendCall.createDeployment name image (getDefault p "replicas" (Value.int 1)) (getDefault p "namespace" (Value.str "default")) (getDefault p "port" Value.null) (getDefault p "env_vars" Value.null) (getDefault p "labels" Value.null)) id := rfl
        simp only [execute_tool, hred, req, hx1, handleExcept]
      refine ⟨by simp [hE, mkErr], ⟨"name", by decide, hx1, by simp [hE, mkErr]⟩, by simp [hE, mkErr]⟩
    · rcases hx2 : lookupP p "image" with _ | v2
      · have hE : execute_tool bk "create_deployment" p = (mkErr (pyKeyError "image"), []) := by
          have hred : execBody bk "create_deployment" p = req p "name" fun name => req p "image" fun image => callWrap bk (BackendCall.createDeployment name image (getDefault p "replicas" (Value.int 1)) (getDefault p "namespace" (Value.str "default")) (getDefault p "port" Value.null) (getDefault p "env_vars" Value.null) (getDefault p "labels" Value.null)) id := rfl
          simp only [execute_tool, hred, req, hx1, hx2, handleExcept]
        refine ⟨by simp [hE, mkErr], ⟨"image", by decide, hx2, by simp [hE, mkErr]⟩, by simp [hE, mkErr]⟩
      · exfalso
        obtain ⟨k, hk, hmiss⟩ := h
        have hreq : requiredParams "create_deployment" = ["name", "image"] := rfl
        rw [hreq] at hk
        simp only [List.mem_cons, List.not_mem_nil, or_false] at hk
        rcases hk with rfl | rfl
        · rw [hx1] at hmiss
          exact Option.noConfusion hmiss
        · rw [hx2] at hmiss
          exact Option.noConfusion hmiss
  by_cases hn13 : n = "create_service"
  · subst hn13
    rcases hx1 : lookupP p "name" with _ | v1
    · have hE : execute_tool bk "create_service" p = (mkErr (pyKeyError "name"), []) := by
        have hred : execBody bk "create_service" p = req p "name" fun name => req p "port" fun port => req p "target_port" fun targetPort => callWrap bk (BackendCall.createService name port targetPort (getDefault p "namespace" (Value.str "default")) (getDefault p "service_type" (Value.str "ClusterIP")) (getDefault p "selector" Value.null)) id := rfl
        simp only [execute_tool, hred, req, hx1, handleExcept]
      refine ⟨by simp [hE, mkErr], ⟨"name", by decide, hx1, by simp [hE, mkErr]⟩, by simp [hE, mkErr]⟩
    · rcases hx2 : lookupP p "port" with _ | v2
      · have hE : execute_tool bk "create_service" p = (mkErr (pyKeyError "port"), []) := by
          have hred : execBody bk "create_service" p = req p "name" fun name => req p "port" fun port => req p "target_port" fun targetPort => callWrap bk (BackendCall.createService name port targetPort (getDefault p "namespace" (Value.str "default")) (getDefault p "service_type" (Value.str "ClusterIP")) (getDefault p "selector" Value.null)) id := rfl
          simp only [execute_tool, hred, req, hx1, hx2, handleExcept]
        refine ⟨by simp [hE, mkErr], ⟨"port", by decide, hx2, by simp [hE, mkErr]⟩, by simp [hE, mkErr]⟩
      · rcases hx3 : lookupP p "target_port" with _ | v3
        · have hE : execute_tool bk "create_service" p = (mkErr (pyKeyError "target_port"), []) := by
            have hred : execBody bk "create_service" p = req p "name" fun name => req p "port" fun port => req p "target_port" fun targetPort => callWrap bk (BackendCall.createService name port targetPort (getDefault p "namespace" (Value.str "default")) (getDefault p "service_type" (Value.str "ClusterIP")) (getDefault p "selector" Value.null)) id := rfl
            simp only [execute_tool, hred, req, hx1, hx2, hx3, handleExcept]
          refine ⟨by simp [hE, mkErr], ⟨"target_port", by decide, hx3, by simp [hE, mkErr]⟩, by simp [hE, mkErr]⟩
        · exfalso
          obtain ⟨k, hk, hmiss⟩ := h
          have hreq : requiredParams "create_service" = ["name", "port", "target_port"] := rfl
          rw [hreq] at hk
          simp only [List.mem_cons, List.not_mem_nil, or_false] at hk
          rcases hk with rfl | rfl | rfl
          · rw [hx1] at hmiss
            exact Option.noConfusion hmiss
          · rw [hx2] at hmiss
            exact Option.noConfusion hmiss
          · rw [hx3] at hmiss
            exact Option.noConfusion hmiss
  by_cases hn14 : n = "create_configmap"
  · subst hn14
    rcases hx1 : lookupP p "name" with _ | v1
    · have hE : execute_tool bk "create_configmap" p = (mkErr (pyKeyError "name"), []) := by
        have hred : execBody bk "create_configmap" p = req p "name" fun name => req p "data" fun data => callWrap bk (BackendCall.createConfigmap name data (getDefault p "namespace" (Value.str "default")) (getDefault p "labels" Value.null)) id := rfl
        simp only [execute_tool, hred, req, hx1, handleExcept]
      refine ⟨by simp [hE, mkErr], ⟨"name", by decide, hx1, by simp [hE, mkErr]⟩, by simp [hE, mkErr]⟩
    · rcases hx2 : lookupP p "data" with _ | v2
      · have hE : execute_tool bk "create_configmap" p = (mkErr (pyKeyError "data"), []) := by
          have hred : execBody bk "create_configmap" p = req p "name" fun name => req p "data" fun data => callWrap bk (BackendCall.createConfigmap name data (getDefault p "namespace" (Value.str "default")) (getDefault p "labels" Value.null)) id := rfl
          simp only [execute_tool, hred, req, hx1, hx2, handleExcept]
        refine ⟨by simp [hE, mkErr], ⟨"data", by decide, hx2, by simp [hE, mkErr]⟩, by simp [hE, mkErr]⟩
      · exfalso
        obtain ⟨k, hk, hmiss⟩ := h
        have hreq : requiredParams "create_configmap" = ["name", "data"] := rfl
        rw [hreq] at hk
        simp only [List.mem_cons, List.not_mem_nil, or_false] at hk
        rcases hk with rfl | rfl
        · rw [hx1] at hmiss
          exact Option.noConfusion hmiss
        · rw [hx2] at hmiss
          exact Option.noConfusion hmiss
  by_cases hn15 : n = "create_secret"
  · subst hn15
    rcases hx1 : lookupP p "name" with _ | v1
    · have hE : execute_tool bk "create_secret" p = (mkErr (pyKeyError "name"), []) := by
        have hred : execBody bk "create_secret" p = req p "name" fun name => req p "data" fun data => callWrap bk (BackendCall.createSecret name data (getDefault p "namespace" (Value.str "default")) (getDefault p "secret_type" (Value.str "Opaque")) (getDefault p "labels" Value.null)) id := rfl
        simp only [execute_tool, hred, req, hx1, handleExcept]
      refine ⟨by simp [hE, mkErr], ⟨"name", by decide, hx1, by simp [hE, mkErr]⟩, by simp [hE, mkErr]⟩
    · rcases hx2 : lookupP p "data" with _ | v2
      · have hE : execute_tool bk "create_secret" p = (mkErr (pyKeyError "data"), []) := by
          have hred : execBody bk "create_secret" p = req p "name" fun name => req p "data" fun data => callWrap bk (BackendCall.createSecret name data (getDefault p "namespace" (Value.str "default")) (getDefault p "secret_type" (Value.str "Opaque")) (getDefault p "labels" Value.null)) id := rfl
          simp only [execute_tool, hred, req, hx1, hx2, handleExcept]
        refine ⟨by simp [hE, mkErr], ⟨"data", by decide, hx2, by simp [hE, mkErr]⟩, by simp [hE, mkErr]⟩
      · exfalso
        obtain ⟨k, hk, hmiss⟩ := h
        have hreq : requiredParams "create_secret" = ["name", "data"] := rfl
        rw [hreq] at hk
        simp only [List.mem_cons, List.not_mem_nil, or_false] at hk
        rcases hk with rfl | rfl
        · rw [hx1] at hmiss
          exact Option.noConfusion hmiss
        · rw [hx2] at hmiss
          exact Option.noConfusion hmiss
  by_cases hn16 : n = "list_configmaps"
  · subst hn16
    exfalso
    obtain ⟨k, hk, _⟩ := h
    have hreq : requiredParams "list_configmaps" = [] := rfl
    rw [hreq] at hk
    exact List.not_mem_nil _ hk
  by_cases hn17 : n = "list_secrets"
  · subst hn17
    exfalso
    obtain ⟨k, hk, _⟩ := h
    have hreq : requiredParams "list_secrets" = [] := rfl
    rw [hreq] at hk
    exact List.not_mem_nil _ hk
  by_cases hn18 : n = "update_pod_image"
  · subst hn18
    rcases hx1 : lookupP p "name" with _ | v1
    · have hE : execute_tool bk "update_pod_image" p = (mkErr (pyKeyError "name"), []) := by
        have hred : execBody bk "update_pod_image" p = req p "name" fun name => req p "container_name" fun container => req p "new_image" fun newImage => callWrap bk (BackendCall.updatePodImage name container newImage (getDefault p "namespace" (Value.str "default"))) id := rfl
        simp only [execute_tool, hred, req, hx1, handleExcept]
      refine ⟨by simp [hE, mkErr], ⟨"name", by decide, hx1, by simp [hE, mkErr]⟩, by simp [hE, mkErr]⟩
    · rcases hx2 : lookupP p "container_name" with _ | v2
      · have hE : execute_tool bk "update_pod_image" p = (mkErr (pyKeyError "container_name"), []) := by
          have hred : execBody bk "update_pod_image" p = req p "name" fun name => req p "container_name" fun container => req p "new_image" fun newImage => callWrap bk (BackendCall.updatePodImage name container newImage (getDefault p "namespace" (Value.str "default"))) id := rfl
          simp only [execute_tool, hred, req, hx1, hx2, handleExcept]
        refine ⟨by simp [hE, mkErr], ⟨"container_name", by decide, hx2, by simp [hE, mkErr]⟩, by simp [hE, mkErr]⟩
      · rcases hx3 : lookupP p "new_image" with _ | v3
        · have hE : execute_tool bk "update_pod_image" p = (mkErr (pyKeyError "new_image"), []) := by
            have hred : execBody bk "update_pod_image" p = req p "name" fun name => req p "container_name" fun container => req p "new_image" fun newImage => callWrap bk (BackendCall.updatePodImage name container newImage (getDefault p "namespace" (Value.str "default"))) id := rfl
            simp only [execute_tool, hred, req, hx1, hx2, hx3, handleExcept]
          refine ⟨by simp [hE, mkErr], ⟨"new_image", by decide, hx3, by simp [hE, mkErr]⟩, by simp [hE, mkErr]⟩
        · exfalso
          obtain ⟨k, hk, hmiss⟩ := h
          have hreq : requiredParams "update_pod_image" = ["name", "container_name", "new_image"] := rfl
          rw [hreq] at hk
          simp only [List.mem_cons, List.not_mem_nil, or_false] at hk
          rcases hk with rfl | rfl | rfl
          · rw [hx1] at hmiss
            exact Option.noConfusion hmiss
          · rw [hx2] at hmiss
            exact Option.noConfusion hmiss
          · rw [hx3] at hmiss
            exact Option.noConfusion hmiss
  by_cases hn19 : n = "update_deployment_image"
  · subst hn19
    rcases hx1 : lookupP p "name" with _ | v1
    · have hE : execute_tool bk "update_deployment_image" p = (mkErr (pyKeyError "name"), []) := by
        have hred : execBody bk "update_deployment_image" p = req p "name" fun name => req p "container_name" fun container => req p "new_image" fun newImage => callWrap bk (BackendCall.updateDeploymentImage name container newImage (getDefault p "namespace" (Value.str "default"))) id := rfl
        simp only [execute_tool, hred, req, hx1, handleExcept]
      refine ⟨by simp [hE, mkErr], ⟨"name", by decide, hx1, by simp [hE, mkErr]⟩, by simp [hE, mkErr]⟩
    · rcases hx2 : lookupP p "container_name" with _ | v2
      · have hE : execute_tool bk "update_deployment_image" p = (mkErr (pyKeyError "container_name"), []) := by
          have hred : execBody bk "update_deployment_image" p = req p "name" fun name => req p "container_name" fun container => req p "new_image" fun newImage => callWrap bk (BackendCall.updateDeploymentImage name container newImage (getDefault p "namespace" (Value.str "default"))) id := rfl
          simp only [execute_tool, hred, req, hx1, hx2, handleExcept]
        refine ⟨by simp [hE, mkErr], ⟨"container_name", by decide, hx2, by simp [hE, mkErr]⟩, by simp [hE, mkErr]⟩
      · rcases hx3 : lookupP p "new_image" with _ | v3
        · have hE : execute_tool bk "update_deployment_image" p = (mkErr (pyKeyError "new_image"), []) := by
            have hred : execBody bk "update_deployment_image" p = req p "name" fun name => req p "container_name" fun container => req p "new_image" fun newImage => callWrap bk (BackendCall.updateDeploymentImage name container newImage (getDefault p "namespace" (Value.str "default"))) id := rfl
            simp only [execute_tool, hred, req, hx1, hx2, hx3, handleExcept]
          refine ⟨by simp [hE, mkErr], ⟨"new_image", by decide, hx3, by simp [hE, mkErr]⟩, by simp [hE, mkErr]⟩
        · exfalso
          obtain ⟨k, hk, hmiss⟩ := h
          have hreq : requiredParams "update_deployment_image" = ["name", "container_name", "new_image"] := rfl
          rw [hreq] at hk
          simp only [List.mem_cons, List.not_mem_nil, or_false] at hk
          rcases hk with rfl | rfl | rfl
          · rw [hx1] at hmiss
            exact Option.noConfusion hmiss
          · rw [hx2] at hmiss
            exact Option.noConfusion hmiss
          · rw [hx3] at hmiss
            exact Option.noConfusion hmiss
  by_cases hn20 : n = "update_configmap"
  · subst hn20
    rcases hx1 : lookupP p "name" with _ | v1
    · have hE : execute_tool bk "update_configmap" p = (mkErr (pyKeyError "name"), []) := by
        have hred : execBody bk "update_configmap" p = req p "name" fun name => req p "data" fun data => callWrap bk (BackendCall.updateConfigmap name data (getDefault p "namespace" (Value.str "default"))) id := rfl
        simp only [execute_tool, hred, req, hx1, handleExcept]
      refine ⟨by simp [hE, mkErr], ⟨"name", by decide, hx1, by simp [hE, mkErr]⟩, by simp [hE, mkErr]⟩
    · rcases hx2 : lookupP p "data" with _ | v2
      · have hE : execute_tool bk "update_configmap" p = (mkErr (pyKeyError "data"), []) := by
          have hred : execBody bk "update_configmap" p = req p "name" fun name => req p "data" fun data => callWrap bk (BackendCall.updateConfigmap name data (getDefault p "namespace" (Value.str "default"))) id := rfl
          simp only [execute_tool, hred, req, hx1, hx2, handleExcept]
        refine ⟨by simp [hE, mkErr], ⟨"data", by decide, hx2, by simp [hE, mkErr]⟩, by simp [hE, mkErr]⟩
      · exfalso
        obtain ⟨k, hk, hmiss⟩ := h
        have hreq : requiredParams "update_configmap" = ["name", "data"] := rfl
        rw [hreq] at hk
        simp only [List.mem_cons, List.not_mem_nil, or_false] at hk
        rcases hk with rfl | rfl
        · rw [hx1] at hmiss
          exact Option.noConfusion hmiss
        · rw [hx2] at hmiss
          exact Option.noConfusion hmiss
  by_cases hn21 : n = "delete_deployment"
  · subst hn21
    rcases hx1 : lookupP p "name" with _ | v1
    · have hE : execute_tool bk "delete_deployment" p = (mkErr (pyKeyError "name"), []) := by
        have hred : execBody bk "delete_deployment" p = req p "name" fun name => callWrap bk (BackendCall.deleteDeployment name (getDefault p "namespace" (Value.str "default"))) id := rfl
        simp only [execute_tool, hred, req, hx1, handleExcept]
      refine ⟨by simp [hE, mkErr], ⟨"name", by decide, hx1, by simp [hE, mkErr]⟩, by simp [hE, mkErr]⟩
    · exfalso
      obtain ⟨k, hk, hmiss⟩ := h
      have hreq : requiredParams "delete_deployment" = ["name"] := rfl
      rw [hreq] at hk
      have hk2 : k = "name" := by
        simpa using hk
      subst hk2
      rw [hx1] at hmiss
      exact Option.noConfusion hmiss
  by_cases hn22 : n = "delete_service"
  · subst hn22
    rcases hx1 : lookupP p "name" with _ | v1
    · have hE : execute_tool bk "delete_service" p = (mkErr (pyKeyError "name"), []) := by
        have hred : execBody bk "delete_service" p = req p "name" fun name => callWrap bk (BackendCall.deleteService name (getDefault p "namespace" (Value.str "default"))) id := rfl
        simp only [execute_tool, hred, req, hx1, handleExcept]
      refine ⟨by simp [hE, mkErr], ⟨"name", by decide, hx1, by simp [hE, mkErr]⟩, by simp [hE, mkErr]⟩
    · exfalso
      obtain ⟨k, hk, hmiss⟩ := h
      have hreq : requiredParams "delete_service" = ["name"] := rfl
      rw [hreq] at hk
      have hk2 : k = "name" := by
        simpa using hk
      subst hk2
      rw [hx1] at hmiss
      exact Option.noConfusion hmiss
  by_cases hn23 : n = "delete_configmap"
  · subst hn23
    rcases hx1 : lookupP p "name" with _ | v1
    · have hE : execute_tool bk "delete_configmap" p = (mkErr (pyKeyError "name"), []) := by
        have hred : execBody bk "delete_configmap" p = req p "name" fun name => callWrap bk (BackendCall.deleteConfigmap name (getDefault p "namespace" (Value.str "default"))) id := rfl
        simp only [execute_tool, hred, req, hx1, handleExcept]
      refine ⟨by simp [hE, mkErr], ⟨"name", by decide, hx1, by simp [hE, mkErr]⟩, by simp [hE, mkErr]⟩
    · exfalso
      obtain ⟨k, hk, hmiss⟩ := h
      have hreq : requiredParams "delete_configmap" = ["name"] := rfl
      rw [hreq] at hk
      have hk2 : k = "name" := by
        simpa using hk
      subst hk2
      rw [hx1] at hmiss
      exact Option.noConfusion hmiss
  by_cases hn24 : n = "delete_secret"
  · subst hn24
    rcases hx1 : lookupP p "name" with _ | v1
    · have hE : execute_tool bk "delete_secret" p = (mkErr (pyKeyError "name"), []) := by
        have hred : execBody bk "delete_secret" p = req p "name" fun name => callWrap bk (BackendCall.deleteSecret name (getDefault p "namespace" (Value.str "default"))) id := rfl
        simp only [execute_tool, hred, req, hx1, handleExcept]
      refine ⟨by simp [hE, mkErr], ⟨"name", by decide, hx1, by simp [hE, mkErr]⟩, by simp [hE, mkErr]⟩
    · exfalso
      obtain ⟨k, hk, hmiss⟩ := h
      have hreq : requiredParams "delete_secret" = ["name"] := rfl
      rw [hreq] at hk
      have hk2 : k = "name" := by
        simpa using hk
      subst hk2
      rw [hx1] at hmiss
      exact Option.noConfusion hmiss
  exfalso
  obtain ⟨k, hk, _⟩ := h
  have hnm : n ∉ toolNames := by
    rw [toolNames_eq]
    simp only [List.mem_cons, List.not_mem_nil, or_false, not_or]
    exact ⟨hn1, hn2, hn3, hn4, hn5, hn6, hn7, hn8, hn9, hn10, hn11, hn12, hn13, hn14, hn15, hn16, hn17, hn18, hn19, hn20, hn21, hn22, hn23, hn24⟩
  rw [requiredParams_nil_of_not_mem n hnm] at hk
  exact List.not_mem_nil _ hk

/-- Witness for C3: `scale_deployment` invoked with only `name` present
    (required `replicas` absent) fails with the KeyError text and makes
    no backend call. -/
theorem execute_missing_required_param_witness :
    (∃ k, k ∈ requiredParams "scale_deployment"
        ∧ lookupP [("name", Value.str "nginx")] k = none)
    ∧ ((execute_tool bk0 "scale_deployment" [("name", Value.str "nginx")]).1.success = false
        ∧ (∃ k, k ∈ requiredParams "scale_deployment"
            ∧ lookupP [("name", Value.str "nginx")] k = none
            ∧ (execute_tool bk0 "scale_deployment" [("name", Value.str "nginx")]).1.error
                = some (pyKeyError k))
        ∧ (execute_tool bk0 "scale_deployment" [("name", Value.str "nginx")]).2 = []) :=
  ⟨⟨"replicas", by decide, rfl⟩,
    execute_missing_required_param bk0 "scale_deployment" [("name", Value.str "nginx")]
      ⟨"replicas", by decide, rfl⟩⟩

/-- `K8sClient._calculate_age`: timestamps are in whole seconds; the
    Python `timedelta` fields are `days = total / 86400` and
    `seconds = total % 86400` (floor division with a non-negative
    remainder, exactly as `timedelta` normalizes; `/` and `%` on `Int`
    are Euclidean division, which agrees with floor division for the
    positive divisor 86400).  A missing timestamp yields "Unknown". -/
def calculate_age (creation : Option Int) (now : Int) : String :=
  match creation with
  | none => "Unknown"
  | some t =>
    let days : Int := (now - t) / 86400
    let seconds : Int := (now - t) % 86400
    if days > 0 then toString days ++ "d"
    else if seconds > 3600 then toString (seconds / 3600) ++ "h"
    else if seconds > 60 then toString (seconds / 60) ++ "m"
    else toString seconds ++ "s"

/-- C4 counterexample: a creation timestamp exactly 1 hour before "now"
    is rendered "60m", not "1h" (the hour threshold is strict), and a
    missing timestamp is rendered "Unknown", not "unknown". -/
theorem calculate_age_boundary_counterexample :
    calculate_age (some 0) 3600 = "60m"
    ∧ calculate_age (some 0) 3600 ≠ "1h"
    ∧ calculate_age none 0 = "Unknown"
    ∧ calculate_age none 0 ≠ "unknown" := by
  refine ⟨rfl, by decide, rfl, by decide⟩

/-- C4 (amended): ages of at least one full day render as whole days
    "Nd"; below one day the unit thresholds are strict: strictly more
    than 3600 seconds renders whole hours "Nh", strictly more than 60
    seconds whole minutes "Nm", otherwise seconds "Ns" (so exactly 25
    hours gives "1d" and exactly 90 minutes gives "1h", but exactly 1
    hour gives "60m" and exactly 1 minute gives "60s"); a missing
    timestamp gives "Unknown" (capital U). -/
theorem calculate_age_characterization (t now : Int) :
    calculate_age none now = "Unknown"
    ∧ (86400 ≤ now - t →
        calculate_age (some t) now = toString ((now - t) / 86400) ++ "d")
    ∧ (0 ≤ now - t → now - t < 86400 → 3600 < now - t →
        calculate_age (some t) now = toString ((now - t) / 3600) ++ "h")
    ∧ (0 ≤ now - t → now - t ≤ 3600 → 60 < now - t →
        calculate_age (some t) now = toString ((now - t) / 60) ++ "m")
    ∧ (0 ≤ now - t → now - t ≤ 60 →
        calculate_age (some t) now = toString (now - t) ++ "s") := by
  refine ⟨rfl, ?_, ?_, ?_, ?_⟩
  · intro h
    have h1 : (now - t) / 86400 > 0 := by omega
    simp only [calculate_age]
    rw [if_pos h1]
  · intro h0 h1 h2
    have hm : (now - t) % 86400 = now - t := by omega
    have hd : ¬((now - t) / 86400 > 0) := by omega
    simp only [calculate_age]
    rw [if_neg hd, hm, if_pos h2]
  · intro h0 h1 h2
    have hm : (now - t) % 86400 = now - t := by omega
    have hd : ¬((now - t) / 86400 > 0) := by omega
    have hh : ¬(now - t > 3600) := by omega
    simp only [calculate_age]
    rw [if_neg hd, hm, if_neg hh, if_pos h2]
  · intro h0 h1
    have hm : (now - t) % 86400 = now - t := by omega
    have hd : ¬((now - t) / 86400 > 0) := by omega
    have hh : ¬(now - t > 3600) := by omega
    have hmn : ¬(now - t > 60) := by omega
    simp only [calculate_age]
    rw [if_neg hd, hm, if_neg hh, if_neg hmn]

/-- Witness for C4 (amended): 90 minutes renders "1h", 25 hours "1d". -/
theorem calculate_age_characterization_witness :
    calculate_age (some 0) 5400 = "1h" ∧ calculate_age (some 0) 90000 = "1d" := by
  constructor
  · have h := (calculate_age_characterization 0 5400).2.2.1
      (by norm_num) (by norm_num) (by norm_num)
    exact h.trans (by decide)
  · have h := (calculate_age_characterization 0 90000).2.1 (by norm_num)
    exact h.trans (by decide)

/-- One entry of `pod.status.container_statuses`. -/
structure ContainerStatus : Type where
  ready : Bool
  restartCount : Nat

/-- The fields of a pod object that `K8sClient.get_pods` reads.
    `containerStatuses = none` models a `None` container-status list. -/
structure PodInfo : Type where
  name : String
  nspace : String
  phase : String
  containerStatuses : Option (List ContainerStatus)
  creationTimestamp : Option Int
  node : Option String
  ip : Option String

/-- One element of the list `get_pods` returns. -/
structure PodSummary : Type where
  name : String
  nspace : String
  phase : String
  ready : Bool
  restarts : Nat
  age : String
  node : Option String
  ip : Option String

/-- The ready/restarts loop of `get_pods`: start from `ready = True`,
    `restarts = 0`; a `None` status list skips the loop (so does an
    empty one — Python's truthiness test and an empty fold agree);
    otherwise each container clears `ready` when not ready and adds its
    restart count. -/
def podReadyRestarts (css : Option (List ContainerStatus)) : Bool × Nat :=
  match css with
  | none => (true, 0)
  | some l =>
      l.foldl
        (fun acc c => (if c.ready = false then false else acc.1, acc.2 + c.restartCount))
        (true, 0)

/-- `K8sClient.get_pods`, mapped over the backend's pod list at a fixed
    current time `now`. -/
def get_pods (pods : List PodInfo) (now : Int) : List PodSummary :=
  pods.map (fun pod =>
    { name := pod.name, nspace := pod.nspace, phase := pod.phase,
      ready := (podReadyRestarts pod.containerStatuses).1,
      restarts := (podReadyRestarts pod.containerStatuses).2,
      age := calculate_age pod.creationTimestamp now,
      node := pod.node, ip := pod.ip })

theorem podReadyRestarts_foldl (l : List ContainerStatus) (b : Bool) (k : Nat) :
    l.foldl
      (fun acc c => (if c.ready = false then false else acc.1, acc.2 + c.restartCount))
      (b, k)
    = (b && l.all (fun c => c.ready), k + (l.map (fun c => c.restartCount)).sum) := by
  induction l generalizing b k with
  | nil => simp
  | cons c cs ih =>
      simp only [List.foldl_cons, List.all_cons, List.map_cons, List.sum_cons]
      rw [ih, Prod.mk.injEq]
      refine ⟨?_, ?_⟩
      · cases hc : c.ready <;> simp [hc]
      · omega

/-- C10: `get_pods` reports `ready` true exactly when every container
    status is ready (vacuously true when the status list is absent or
    empty) and `restarts` as the sum of the containers' restart counts
    (0 when absent or empty). -/
theorem get_pods_ready_restarts (pods : List PodInfo) (now : Int) :
    (∀ css, podReadyRestarts css
        = ((css.getD []).all (fun c => c.ready),
           ((css.getD []).map (fun c => c.restartCount)).sum))
    ∧ podReadyRestarts none = (true, 0)
    ∧ podReadyRestarts (some []) = (true, 0)
    ∧ (get_pods pods now).map (fun s => (s.ready, s.restarts))
        = pods.map (fun pod =>
            ((pod.containerStatuses.getD []).all (fun c => c.ready),
             ((pod.containerStatuses.getD []).map (fun c => c.restartCount)).sum)) := by
  have hmain : ∀ css, podReadyRestarts css
      = ((css.getD []).all (fun c => c.ready),
         ((css.getD []).map (fun c => c.restartCount)).sum) := by
    intro css
    cases css with
    | none => rfl
    | some l =>
        show l.foldl _ (true, 0) = _
        rw [podReadyRestarts_foldl]
        simp
  refine ⟨hmain, rfl, rfl, ?_⟩
  unfold get_pods
  rw [List.map_map]
  apply List.map_congr_left
  intro pod _
  simp [hmain pod.containerStatuses]

/-- One entry of the model's `tool_calls`: its correlation id, function
    name, and the outcome of `json.loads` on its raw arguments string
    (`Except.error` models a JSON parse failure raising). -/
structure ToolCall : Type where
  id : String
  name : String
  arguments : Except String Params

/-- The message object returned by a chat-completion call: optional
    content and a (possibly empty) list of requested tool calls. -/
structure ModelResp : Type where
  content : Option String
  toolCalls : List ToolCall

/-- A conversation-history entry of `K8sAgent`: user messages, assistant
    messages (with the tool calls they request, empty when none), and
    tool-result messages correlated by call id. -/
inductive Msg : Type where
  | user (content : String)
  | assistant (content : Option String) (toolCalls : List ToolCall)
  | tool (callId : String) (name : String) (content : String)

/-- Escape backslash and double quote, as `json.dumps` does. -/
def jsonEscape : List Char → List Char
  | [] => []
  | c :: cs =>
      if c = Char.ofNat 34 ∨ c = Char.ofNat 92 then Char.ofNat 92 :: c :: jsonEscape cs
      else c :: jsonEscape cs

/-- A JSON string literal. -/
def jsonStr (s : String) : String :=
  "\"" ++ String.mk (jsonEscape s.data) ++ "\""

mutual

/-- `json.dumps` of a value. -/
def jsonOfValue : Value → String
  | Value.null => "null"
  | Value.bool true => "true"
  | Value.bool false => "false"
  | Value.int i => toString i
  | Value.str s => jsonStr s
  | Value.arr l => "[" ++ jsonOfArr l ++ "]"
  | Value.obj l => "\x7b" ++ jsonOfObj l ++ "\x7d"

def jsonOfArr : List Value → String
  | [] => ""
  | [v] => jsonOfValue v
  | v :: v2 :: rest => jsonOfValue v ++ ", " ++ jsonOfArr (v2 :: rest)

def jsonOfObj : List (String × Value) → String
  | [] => ""
  | [(k, v)] => jsonStr k ++ ": " ++ jsonOfValue v
  | (k, v) :: f :: rest => jsonStr k ++ ": " ++ jsonOfValue v ++ ", " ++ jsonOfObj (f :: rest)

end

/-- `json.dumps(function_result)`: the envelope dict in insertion order. -/
def envelopeToString (e : Envelope) : String :=
  "\x7b\"success\": " ++ (if e.success then "true" else "false")
  ++ (match e.data with
      | some v => ", \"data\": " ++ jsonOfValue v
      | none => "")
  ++ (match e.error with
      | some s => ", \"error\": " ++ jsonStr s
      | none => "")
  ++ "\x7d"

/-- The turn-level error text of `K8sAgent.chat`. -/
def errText (e : String) : String := "Error processing request: " ++ e

/-- Whether a parse outcome is a success. -/
def exOk : Except String Params → Bool
  | Except.ok _ => true
  | Except.error _ => false

/-- The tool-call loop of `chat`: decode each call's arguments
    (`json.loads`, which may raise, aborting the loop with the history
    appended so far), execute the tool, and append the tool-result
    message. -/
def runBatch (h : List Msg) (tcs : List ToolCall) (bk : Backend) :
    Except (String × List Msg) (List Msg) :=
  match tcs with
  | [] => Except.ok h
  | tc :: rest =>
      match tc.arguments with
      | Except.error e => Except.error (e, h)
      | Except.ok args =>
          runBatch
            (h ++ [Msg.tool tc.id tc.name (envelopeToString (execute_tool bk tc.name args).1)])
            rest bk

/-- `K8sAgent.chat` for one turn: the user message is appended first;
    the whole body is wrapped in try/except, which appends and returns
    "Error processing request: <e>" on any exception, keeping whatever
    appends already happened. -/
def chat (h : List Msg) (u : String) (resp1 : Except String ModelResp)
    (resp2 : Except String (Option String)) (bk : Backend) :
    Option String × List Msg :=
  let h1 := h ++ [Msg.user u]
  match resp1 with
  | Except.error e =>
      (some (errText e), h1 ++ [Msg.assistant (some (errText e)) []])
  | Except.ok rm =>
      match rm.toolCalls with
      | [] => (rm.content, h1 ++ [Msg.assistant rm.content []])
      | tc :: rest =>
          let h2 := h1 ++ [Msg.assistant rm.content (tc :: rest)]
          match runBatch h2 (tc :: rest) bk with
          | Except.error (e, hPart) =>
              (some (errText e), hPart ++ [Msg.assistant (some (errText e)) []])
          | Except.ok h3 =>
              match resp2 with
              | Except.error e =>
                  (some (errText e), h3 ++ [Msg.assistant (some (errText e)) []])
              | Except.ok fin => (fin, h3 ++ [Msg.assistant fin []])

/-- `K8sAgent.reset_conversation`. -/
def reset_conversation (_h : List Msg) : List Msg := []

/-- `K8sAgent.get_conversation_history` at the value level (the
    reference-level copy semantics is modelled separately below). -/
def get_conversation_history (h : List Msg) : List Msg := h

/-- Walk the history tracking the batch of tool calls still awaiting
    their tool-result messages: an assistant message while a batch is
    pending, or a pending batch at the end, or a tool result out of
    correlation order, violates the batch invariant. -/
def batchOkAux : List ToolCall → List Msg → Bool
  | pending, [] => pending.isEmpty
  | pending, Msg.user _ :: rest => batchOkAux pending rest
  | pending, Msg.assistant _ tcs :: rest =>
      if pending.isEmpty then batchOkAux tcs rest else false
  | tc :: pending, Msg.tool cid _ _ :: rest =>
      if cid = tc.id then batchOkAux pending rest else false
  | [], Msg.tool _ _ _ :: rest => batchOkAux [] rest

/-- The batch invariant of C5: every assistant message requesting a
    batch is followed by one matching tool-result message per requested
    invocation before the next assistant message. -/
def batchOk (h : List Msg) : Bool := batchOkAux [] h

theorem batchOkAux_append (h : List Msg) (p : List ToolCall) (t : List Msg)
    (hh : batchOkAux p h = true) : batchOkAux p (h ++ t) = batchOkAux [] t := by
  induction h generalizing p with
  | nil =>
      cases p with
      | nil => simp
      | cons a as => simp [batchOkAux] at hh
  | cons m rest ih =>
      cases m with
      | user c =>
          simp only [batchOkAux] at hh
          simp only [List.cons_append, batchOkAux]
          exact ih p hh
      | assistant c tcs =>
          cases p with
          | nil =>
              simp only [batchOkAux, List.isEmpty_nil, if_true] at hh
              simp only [List.cons_append, batchOkAux, List.isEmpty_nil, if_true]
              exact ih tcs hh
          | cons a as =>
              simp [batchOkAux] at hh
      | tool cid nm ct =>
          cases p with
          | nil =>
              simp only [batchOkAux] at hh
              simp only [List.cons_append, batchOkAux]
              exact ih [] hh
          | cons tc p2 =>
              by_cases hid : cid = tc.id
              · simp only [batchOkAux, hid, if_pos rfl] at hh
                simp only [List.cons_append, batchOkAux, hid, if_pos rfl]
                exact ih p2 hh
              · simp [batchOkAux, hid] at hh

/-- The tool-result message `runBatch` appends for one tool call (only
    meaningful when the call's arguments decode). -/
def toolMsgOf (bk : Backend) (tc : ToolCall) : Msg :=
  match tc.arguments with
  | Except.ok args =>
      Msg.tool tc.id tc.name (envelopeToString (execute_tool bk tc.name args).1)
  | Except.error _ => Msg.tool tc.id tc.name ""

theorem runBatch_allOk (bk : Backend) (tcs : List ToolCall) (h : List Msg)
    (hargs : ∀ tc ∈ tcs, exOk tc.arguments = true) :
    runBatch h tcs bk = Except.ok (h ++ tcs.map (toolMsgOf bk)) := by
  induction tcs generalizing h with
  | nil => simp [runBatch]
  | cons tc rest ih =>
      have htc := hargs tc (List.mem_cons_self _ _)
      cases ha : tc.arguments with
      | error e => rw [ha] at htc; simp [exOk] at htc
      | ok args =>
          simp only [runBatch, ha]
          rw [ih _ (fun tc2 h2 => hargs tc2 (List.mem_cons_of_mem _ h2))]
          simp [toolMsgOf, ha]

theorem batchOkAux_consume (bk : Backend) (tcs : List ToolCall) (t : List Msg) :
    batchOkAux tcs (tcs.map (toolMsgOf bk) ++ t) = batchOkAux [] t := by
  induction tcs with
  | nil => simp
  | cons tc rest ih =>
      cases ha : tc.arguments with
      | ok args =>
          simp only [List.map_cons, List.cons_append, toolMsgOf, ha, batchOkAux, if_pos rfl]
          exact ih
      | error e =>
          simp only [List.map_cons, List.cons_append, toolMsgOf, ha, batchOkAux, if_pos rfl]
          exact ih

theorem batchOk_extend (h t : List Msg) (hcons : batchOk h = true)
    (ht : batchOk t = true) : batchOk (h ++ t) = true := by
  unfold batchOk at *
  rw [batchOkAux_append h [] t hcons]
  exact ht

/-- A tool call whose raw arguments string is not valid JSON, so
    `json.loads` raises while the batch is being executed. -/
def badCall : ToolCall :=
  ⟨"call_1", "list_pods", Except.error "Expecting value: line 1 column 1 (char 0)"⟩

/-- C5 counterexample: when the model requests a batch containing a tool
    call with undecodable arguments, the turn-level handler catches the
    `json.loads` exception — but the history is left mid-batch: the
    assistant message requesting the batch is followed by the error
    assistant message with no tool-result message in between, violating
    the claimed invariant. -/
theorem chat_midbatch_counterexample :
    batchOk ((chat [] "list the pods"
        (Except.ok ⟨none, [badCall]⟩) (Except.ok (some "done")) bk0).2) = false := rfl

/-- C5 (amended): exceptions from either model call are caught at turn
    level — the error is recorded in history as an assistant message
    "Error processing request: <e>" and returned as the turn's result
    (for a first-call failure the history is the user message followed
    by that error message; for a second-call failure it is the batch
    message, its tool results, then the error message) — and the turn
    always completes; provided every requested invocation's arguments
    string decodes (no `json.loads` failure mid-batch), the final
    history also satisfies the batch invariant whenever the starting
    history does. -/
theorem chat_turn_completes_batch_consistent (h : List Msg) (u : String)
    (resp1 : Except String ModelResp) (resp2 : Except String (Option String))
    (bk : Backend)
    (hargs : ∀ rm, resp1 = Except.ok rm → ∀ tc ∈ rm.toolCalls, exOk tc.arguments = true)
    (hcons : batchOk h = true) :
    batchOk (chat h u resp1 resp2 bk).2 = true
    ∧ (∀ e, resp1 = Except.error e →
        chat h u resp1 resp2 bk
          = (some (errText e), h ++ [Msg.user u, Msg.assistant (some (errText e)) []]))
    ∧ (∀ rm e, resp1 = Except.ok rm → resp2 = Except.error e → rm.toolCalls ≠ [] →
        chat h u resp1 resp2 bk
          = (some (errText e),
             ((h ++ [Msg.user u, Msg.assistant rm.content rm.toolCalls])
                ++ rm.toolCalls.map (toolMsgOf bk))
               ++ [Msg.assistant (some (errText e)) []])) := by
  cases resp1 with
  | error e =>
      refine ⟨?_, ?_, ?_⟩
      · show batchOkAux [] ((h ++ [Msg.user u]) ++ [Msg.assistant (some (errText e)) []]) = true
        rw [List.append_assoc]
        exact batchOk_extend h _ hcons rfl
      · intro e2 he
        injection he with he2
        subst he2
        show (some (errText e), (h ++ [Msg.user u]) ++ [Msg.assistant (some (errText e)) []]) = _
        rw [List.append_assoc]
        rfl
      · intro rm e2 he
        exact absurd he (by simp)
  | ok rm =>
      obtain ⟨c, tcs⟩ := rm
      cases tcs with
      | nil =>
          refine ⟨?_, ?_, ?_⟩
          · show batchOkAux [] ((h ++ [Msg.user u]) ++ [Msg.assistant c []]) = true
            rw [List.append_assoc]
            exact batchOk_extend h _ hcons rfl
          · intro e2 he
            exact absurd he (by simp)
          · intro rm2 e2 he _ hne
            injection he with he2
            subst he2
            exact absurd rfl hne
      | cons tc rest =>
          have hall : ∀ tc2 ∈ (tc :: rest), exOk tc2.arguments = true :=
            hargs ⟨c, tc :: rest⟩ rfl
          have hrb := runBatch_allOk bk (tc :: rest)
            ((h ++ [Msg.user u]) ++ [Msg.assistant c (tc :: rest)]) hall
          cases resp2 with
          | error e2 =>
              have hchat : chat h u (Except.ok ⟨c, tc :: rest⟩) (Except.error e2) bk
                  = (some (errText e2),
                     (((h ++ [Msg.user u]) ++ [Msg.assistant c (tc :: rest)])
                        ++ (tc :: rest).map (toolMsgOf bk))
                       ++ [Msg.assistant (some (errText e2)) []]) := by
                simp only [chat, hrb]
              refine ⟨?_, ?_, ?_⟩
              · rw [hchat]
                show batchOk _ = true
                simp only [List.append_assoc, List.singleton_append]
                refine batchOk_extend h _ hcons ?_
                show batchOkAux (tc :: rest)
                  ((tc :: rest).map (toolMsgOf bk)
                    ++ [Msg.assistant (some (errText e2)) []]) = true
                rw [batchOkAux_consume]
                rfl
              · intro e3 he
                exact absurd he (by simp)
              · intro rm2 e3 he he2 hne
                injection he with hrm
                subst hrm
                injection he2 with he3
                subst he3
                rw [hchat]
                simp [List.append_assoc]
          | ok fin =>
              have hchat : chat h u (Except.ok ⟨c, tc :: rest⟩) (Except.ok fin) bk
                  = (fin,
                     (((h ++ [Msg.user u]) ++ [Msg.assistant c (tc :: rest)])
                        ++ (tc :: rest).map (toolMsgOf bk))
                       ++ [Msg.assistant fin []]) := by
                simp only [chat, hrb]
              refine ⟨?_, ?_, ?_⟩
              · rw [hchat]
                show batchOk _ = true
                simp only [List.append_assoc, List.singleton_append]
                refine batchOk_extend h _ hcons ?_
                show batchOkAux (tc :: rest)
                  ((tc :: rest).map (toolMsgOf bk) ++ [Msg.assistant fin []]) = true
                rw [batchOkAux_consume]
                rfl
              · intro e3 he
                exact absurd he (by simp)
              · intro rm2 e3 he he2 hne
                exact absurd he2 (by simp)

/-- Witness for C5 (amended): a concrete turn whose model response
    requests one well-formed invocation, with the second model call
    failing; the batch invariant holds, and the error message is both
    returned and recorded as the final assistant message in history. -/
theorem chat_turn_completes_witness :
    batchOk ((chat [] "hello"
        (Except.ok ⟨none, [⟨"call_1", "list_pods", Except.ok []⟩]⟩)
        (Except.error "boom") bk0).2) = true
    ∧ (chat [] "hello"
        (Except.ok ⟨none, [⟨"call_1", "list_pods", Except.ok []⟩]⟩)
        (Except.error "boom") bk0).1 = some (errText "boom")
    ∧ ((chat [] "hello"
        (Except.ok ⟨none, [⟨"call_1", "list_pods", Except.ok []⟩]⟩)
        (Except.error "boom") bk0).2).getLast?
      = some (Msg.assistant (some (errText "boom")) []) := by
  have hthm := chat_turn_completes_batch_consistent [] "hello"
    (Except.ok ⟨none, [⟨"call_1", "list_pods", Except.ok []⟩]⟩)
    (Except.error "boom") bk0
    (by intro rm hrm tc2 htc2; injection hrm with h2; subst h2;
        simp at htc2; subst htc2; rfl)
    rfl
  have h3 := hthm.2.2 ⟨none, [⟨"call_1", "list_pods", Except.ok []⟩]⟩ "boom"
    rfl rfl (by simp)
  exact ⟨hthm.1, by rw [h3], by rw [h3]; rfl⟩

/-- C8: after `reset_conversation`, `get_conversation_history` is empty;
    and a plain-content turn (no tool calls) appends exactly the user
    message then the assistant message, returning the content. -/
theorem reset_and_plain_turn_history (h hist : List Msg) (u : String)
    (c : Option String) (resp2 : Except String (Option String)) (bk : Backend) :
    get_conversation_history (reset_conversation h) = []
    ∧ (chat hist u (Except.ok ⟨c, []⟩) resp2 bk).2
        = hist ++ [Msg.user u, Msg.assistant c []]
    ∧ (chat hist u (Except.ok ⟨c, []⟩) resp2 bk).1 = c := by
  refine ⟨rfl, ?_, rfl⟩
  show (hist ++ [Msg.user u]) ++ [Msg.assistant c []] = _
  rw [List.append_assoc]
  rfl

/-- Python's `\s` class: the whitespace characters skipped by the
    prompt-file pattern and stripped by `str.strip()`. -/
def isPySpace (c : Char) : Bool :=
  c = ' ' || c = '\t' || c = '\n' || c = '\r' || c = '\x0b' || c = '\x0c'

/-- Drop leading whitespace (the `\s*` parts of the pattern). -/
def dropWs : List Char → List Char
  | [] => []
  | c :: cs => if isPySpace c then dropWs cs else c :: cs

/-- Match a literal character sequence, returning the rest on success. -/
def matchLit : List Char → List Char → Option (List Char)
  | [], rest => some rest
  | _ :: _, [] => none
  | pc :: ps, c :: cs => if c = pc then matchLit ps cs else none

/-- Lazily capture up to the next closing triple quote (the `(.*?)"""`
    part, with DOTALL so newlines are included); fails when no closing
    triple quote remains. -/
def captureTriple : List Char → Option (List Char)
  | '"' :: '"' :: '"' :: _ => some []
  | c :: cs => (captureTriple cs).map (fun t => c :: t)
  | [] => none

/-- Attempt the pattern `system_prompt\s*=\s*"""(.*?)"""` anchored at the
    head of `cs`. -/
def tryMatchAt (cs : List Char) : Option (List Char) :=
  match matchLit "system_prompt".data cs with
  | none => none
  | some r1 =>
      match dropWs r1 with
      | '=' :: r2 =>
          match matchLit ['"', '"', '"'] (dropWs r2) with
          | none => none
          | some r3 => captureTriple r3
      | _ => none

/-- `re.search` of the pattern: try each start position left to right. -/
def searchSystemPrompt : List Char → Option (List Char)
  | [] => none
  | c :: cs =>
      match tryMatchAt (c :: cs) with
      | some cap => some cap
      | none => searchSystemPrompt cs

/-- Python `str.strip()`: drop whitespace from both ends. -/
def pyStrip (s : String) : String :=
  String.mk ((dropWs ((dropWs s.data).reverse)).reverse)

/-- The hardcoded `DEFAULT_SYSTEM_PROMPT` of `k8s_agent.py`. -/
def DEFAULT_SYSTEM_PROMPT : String :=
  "You are a helpful Kubernetes operations assistant. You can help users manage their Kubernetes cluster by:

1. Listing and inspecting resources (pods, deployments, services, namespaces)
2. Scaling deployments up or down
3. Getting pod logs for troubleshooting
4. Creating and deleting namespaces
5. Deleting problematic pods
6. Getting cluster information

Always provide clear, concise responses using plain text formatting. Avoid special characters or complex markdown.
When showing resource information, use simple tables with basic ASCII characters only.
If an operation could be destructive (like deleting resources), ask for confirmation first.
Be proactive in suggesting related operations that might be helpful."

/-- The TOML-file branch of `load_system_prompt`: `none` models a
    missing file or a read that raises (both fall through); a present
    file is scanned for the triple-quoted entry, whose capture is
    stripped; otherwise the default applies. -/
def systemPromptFromFile : Option String → String
  | none => DEFAULT_SYSTEM_PROMPT
  | some content =>
      match searchSystemPrompt content.data with
      | some cap => pyStrip (String.mk cap)
      | none => DEFAULT_SYSTEM_PROMPT

/-- `load_system_prompt`: `env` is `os.getenv("SYSTEM_PROMPT")` (`none`
    when unset); Python's truthiness test means a present-but-empty
    override falls through to the file branch. -/
def load_system_prompt (env : Option String) (file : Option String) : String :=
  match env with
  | some e => if e = "" then systemPromptFromFile file else e
  | none => systemPromptFromFile file

/-- A config file containing a triple-quoted `system_prompt` entry. -/
def cfgExample : String := "system_prompt = \"\"\"Be terse.\"\"\""

/-- C7 counterexample: with the environment override present but empty
    (`SYSTEM_PROMPT=""`), resolution does not use it verbatim — Python's
    truthiness test lets it fall through to the file value, which here is
    "Be terse." rather than the empty override. -/
theorem system_prompt_empty_env_counterexample :
    load_system_prompt (some "") (some cfgExample) = "Be terse."
    ∧ ("Be terse." : String) ≠ "" := by
  refine ⟨rfl, by decide⟩

/-- C7 (amended): precedence holds with the override qualified as
    non-empty — a present non-empty environment override is used
    verbatim regardless of file content; otherwise (unset or empty
    override) a parsable file entry is used (whitespace-stripped);
    otherwise (missing/unreadable or unparsable file) the hardcoded
    default is used.  Resolution is a total function and never raises. -/
theorem system_prompt_precedence (env file : Option String) :
    (∀ e, env = some e → e ≠ "" → load_system_prompt env file = e)
    ∧ ((env = none ∨ env = some "") → ∀ content cap, file = some content →
        searchSystemPrompt content.data = some cap →
        load_system_prompt env file = pyStrip (String.mk cap))
    ∧ ((env = none ∨ env = some "") → file = none →
        load_system_prompt env file = DEFAULT_SYSTEM_PROMPT)
    ∧ ((env = none ∨ env = some "") → ∀ content, file = some content →
        searchSystemPrompt content.data = none →
        load_system_prompt env file = DEFAULT_SYSTEM_PROMPT) := by
  refine ⟨?_, ?_, ?_, ?_⟩
  · intro e he hne
    subst he
    simp [load_system_prompt, hne]
  · intro henv content cap hfile hcap
    subst hfile
    rcases henv with rfl | rfl <;>
      simp [load_system_prompt, systemPromptFromFile, hcap]
  · intro henv hfile
    subst hfile
    rcases henv with rfl | rfl <;> rfl
  · intro henv content hfile hcap
    subst hfile
    rcases henv with rfl | rfl <;>
      simp [load_system_prompt, systemPromptFromFile, hcap]

/-- Witness for C7 (amended) at concrete inputs: a non-empty override
    wins over a valid file; an unset override falls to the file value. -/
theorem system_prompt_precedence_witness :
    load_system_prompt (some "override") (some cfgExample) = "override"
    ∧ load_system_prompt none (some cfgExample) = "Be terse." := by
  refine ⟨(system_prompt_precedence (some "override") (some cfgExample)).1
    "override" rfl (by decide), ?_⟩
  have h := (system_prompt_precedence none (some cfgExample)).2.1 (Or.inl rfl)
    cfgExample ("Be terse.".data) rfl rfl
  exact h.trans (by decide)

/-- Reference-semantics model of the conversation history for the
    snapshot claim: Python lists hold references to message objects on a
    heap (dicts are mutable and shared).  `heap` is the object store
    indexed by reference, `live` the agent's `conversation_history` list
    of references, `caller` the list the caller received. -/
structure RefState : Type where
  heap : List Msg
  live : List Nat
  caller : List Nat

/-- `get_conversation_history`'s `self.conversation_history.copy()`: the
    caller receives a new list object containing the same references. -/
def getHistoryCopy (heap : List Msg) (live : List Nat) : RefState :=
  ⟨heap, live, live⟩

/-- Mutations a caller can perform on the returned list: list-level
    operations (append a fresh object, remove, replace a slot with a
    fresh object) and in-place mutation of a contained message object. -/
inductive CallerOp : Type where
  | listAppend (m : Msg)
  | listRemove (i : Nat)
  | listSet (i : Nat) (m : Msg)
  | entrySet (i : Nat) (m : Msg)

def applyOp (s : RefState) (op : CallerOp) : RefState :=
  match op with
  | CallerOp.listAppend m => ⟨s.heap ++ [m], s.live, s.caller ++ [s.heap.length]⟩
  | CallerOp.listRemove i => ⟨s.heap, s.live, s.caller.eraseIdx i⟩
  | CallerOp.listSet i m => ⟨s.heap ++ [m], s.live, s.caller.set i s.heap.length⟩
  | CallerOp.entrySet i m =>
      match s.caller[i]? with
      | some r => ⟨s.heap.set r m, s.live, s.caller⟩
      | none => s

/-- The message sequence the agent observes through its live history. -/
def renderLive (s : RefState) : List Msg :=
  s.live.map (fun r => s.heap.getD r (Msg.user ""))

/-- List-level operations: everything except in-place entry mutation. -/
def isListOp : CallerOp → Bool
  | CallerOp.entrySet _ _ => false
  | _ => true

/-- C9 counterexample: the copy is shallow, so mutating a message entry
    reachable from the returned list changes what the agent's live
    history renders — the claim fails for entry mutations. -/
theorem history_snapshot_entry_mutation_counterexample :
    renderLive (getHistoryCopy [Msg.user "hello"] [0]) = [Msg.user "hello"]
    ∧ renderLive (applyOp (getHistoryCopy [Msg.user "hello"] [0])
        (CallerOp.entrySet 0 (Msg.user "changed")))
      = [Msg.user "changed"]
    ∧ Msg.user "changed" ≠ Msg.user "hello" := by
  refine ⟨rfl, rfl, ?_⟩
  intro hEq
  injection hEq with h1
  exact absurd h1 (by decide)

theorem listOp_step (op : CallerOp) (hop : isListOp op = true) (s : RefState) :
    ∃ ext, (applyOp s op).heap = s.heap ++ ext ∧ (applyOp s op).live = s.live := by
  cases op with
  | listAppend m => exact ⟨[m], rfl, rfl⟩
  | listRemove i => exact ⟨[], by simp [applyOp], rfl⟩
  | listSet i m => exact ⟨[m], rfl, rfl⟩
  | entrySet i m => simp [isListOp] at hop

theorem foldl_listOps_frame (ops : List CallerOp) (s : RefState)
    (hops : ∀ op ∈ ops, isListOp op = true) :
    ∃ ext, (ops.foldl applyOp s).heap = s.heap ++ ext
      ∧ (ops.foldl applyOp s).live = s.live := by
  induction ops generalizing s with
  | nil => exact ⟨[], by simp, rfl⟩
  | cons op rest ih =>
      obtain ⟨e1, he1, hl1⟩ := listOp_step op (hops op (List.mem_cons_self _ _)) s
      obtain ⟨e2, he2, hl2⟩ :=
        ih (applyOp s op) (fun o ho => hops o (List.mem_cons_of_mem _ ho))
      refine ⟨e1 ++ e2, ?_, ?_⟩
      · rw [List.foldl_cons, he2, he1, List.append_assoc]
      · rw [List.foldl_cons, hl2, hl1]

/-- C9 (amended): the returned value is a fresh list sharing entry
    references — for every sequence of list-level mutations (append,
    remove, replace) on the returned value, the agent's live history is
    unchanged; only in-place mutation of a contained entry can leak
    through (see the counterexample). -/
theorem history_snapshot_list_ops_frame (heap : List Msg) (live : List Nat)
    (ops : List CallerOp) (hops : ∀ op ∈ ops, isListOp op = true)
    (hvalid : ∀ r ∈ live, r < heap.length) :
    renderLive (ops.foldl applyOp (getHistoryCopy heap live))
      = renderLive (getHistoryCopy heap live) := by
  obtain ⟨ext, hheap, hlive⟩ := foldl_listOps_frame ops (getHistoryCopy heap live) hops
  unfold renderLive
  rw [hheap, hlive]
  apply List.map_congr_left
  intro r hr
  have hlt : r < heap.length := hvalid r hr
  simp only [List.getD_eq_getElem?_getD, getHistoryCopy]
  rw [List.getElem?_append, if_pos hlt]

/-- Witness for C9 (amended): a caller appending and then removing on
    the returned list leaves the live history unchanged. -/
theorem history_snapshot_list_ops_frame_witness :
    renderLive (([CallerOp.listAppend (Msg.user "x"), CallerOp.listRemove 0].foldl
        applyOp (getHistoryCopy [Msg.user "hello"] [0])))
      = renderLive (getHistoryCopy [Msg.user "hello"] [0]) :=
  history_snapshot_list_ops_frame [Msg.user "hello"] [0]
    [CallerOp.listAppend (Msg.user "x"), CallerOp.listRemove 0]
    (by intro op hop; fin_cases hop <;> rfl)
    (by intro r hr; simp at hr; subst hr; decide)
